import Mathlib

/-!
Verification development for the volumizer_cli repository.

The definitions below are shallow embeddings of the Python source:
  * `src/cli/pdb.py` — stoichiometry clustering (`get_stoichiometry`) and
    secondary-structure fractions (`get_secondary_structure`);
  * `src/cli/rcsb.py` — the multi-endpoint download path
    (`download_biological_assembly`, `download_pdb_file`);
  * `src/scripts/filtering/get_pdbs_by_size.py` — the per-identifier
    pipeline (`processOne`, `runBatch`).

Machine reals (Python floats) are modelled as rationals; filesystem and
network effects are modelled as explicit oracles plus an effect trace.
-/

namespace Volumizer

/-! ### Stoichiometry clustering engine (src/cli/pdb.py, get_stoichiometry)

A cluster is a pair of its dict key and its member-sequence list, exactly as
in the Python `clusters` dict (insertion-ordered, keys `0, 1, 2, ...`).
The representative used for comparison is `cluster_sequences[0]`.

The pairwise sequence alignment itself is performed by the external biotite
toolkit (`align_optimal`), so the engine is parameterised by an
`identity : String → String → ℚ` oracle; the repository instantiates it with
`chainIdentity` below (the line-44 formula applied to the alignment trace).
-/

/-- `SEQUENCE_IDENTITY_CUTOFF = 0.90` from src/cli/constants.py. -/
def SEQUENCE_IDENTITY_CUTOFF : ℚ := 9 / 10

/-- The comparison anchor of a cluster: `cluster_sequences[0]`. -/
def representative (c : Nat × List String) : String :=
  c.2.headI

/-- One scan of the `for cluster_id, cluster_sequences in clusters.items()`
loop (src/cli/pdb.py lines 42-50): the query joins the first cluster, in
insertion order, whose representative reaches the cutoff (`break`), the
other clusters being left untouched; `none` when no cluster reaches it. -/
def placeInClusters (identity : String → String → ℚ) (cutoff : ℚ) (q : String) :
    List (Nat × List String) → Option (List (Nat × List String))
  | [] => none
  | c :: rest =>
    if cutoff ≤ identity q (representative c) then
      some ((c.1, c.2 ++ [q]) :: rest)
    else
      (placeInClusters identity cutoff q rest).map (c :: ·)

/-- One iteration of the `while len(sequences) > 0` loop body
(src/cli/pdb.py lines 40-55) on state `(cluster_count, clusters)`:
place the query in the first matching cluster, else append a fresh
cluster keyed `cluster_count + 1` holding only the query. -/
def assignSeq (identity : String → String → ℚ) (cutoff : ℚ)
    (st : Nat × List (Nat × List String)) (q : String) : Nat × List (Nat × List String) :=
  match placeInClusters identity cutoff q st.2 with
  | some clusters => (st.1, clusters)
  | none => (st.1 + 1, st.2 ++ [(st.1 + 1, [q])])

/-- The cluster set built by src/cli/pdb.py lines 37-55.  Python's
`sequences.pop()` removes the *last* element, so the loop consumes the
per-chain sequences in reverse chain order: the seed of cluster `0` is the
last chain's sequence and the remaining chains follow, still reversed.
`none` models the `IndexError` that `pop` raises on an empty list. -/
def getStoichClusters (identity : String → String → ℚ) (cutoff : ℚ)
    (sequences : List String) : Option (List (Nat × List String)) :=
  match sequences.reverse with
  | [] => none
  | s0 :: rest => some (rest.foldl (assignSeq identity cutoff) (0, [(0, [s0])])).2

/-- `get_stoichiometry` (src/cli/pdb.py line 58): the cluster set reduced to
`cluster_id ↦ len(cluster_sequences)`. -/
def get_stoichiometry (identity : String → String → ℚ) (cutoff : ℚ)
    (sequences : List String) : Option (List (Nat × Nat)) :=
  (getStoichClusters identity cutoff sequences).map (List.map fun c => (c.1, c.2.length))

/-- Follows the spec's words (§4.4) for comparison with `getStoichClusters`:
process the sequences one at a time in chain order, the *first* chain's
sequence seeding the first cluster. -/
def specOrderClusters (identity : String → String → ℚ) (cutoff : ℚ)
    (sequences : List String) : Option (List (Nat × List String)) :=
  match sequences with
  | [] => none
  | s0 :: rest => some (rest.foldl (assignSeq identity cutoff) (0, [(0, [s0])])).2

/-- The identity formula of src/cli/pdb.py line 44 applied to an alignment
trace: `sum(1 for position in trace if position[-1] != -1) / trace.shape[0]`.
A trace row is `(query_index, representative_index)` with `-1` for a gap,
exactly biotite's `alignment.trace`; only the *representative* column is
tested for a gap. -/
def alignmentIdentity (trace : List (Int × Int)) : ℚ :=
  (((trace.filter fun p => p.2 ≠ -1).length : ℚ)) / ((trace.length : ℚ))

/-- The identity the repository feeds to the clustering engine: the line-44
formula applied to the (external) optimal alignment's trace for the query
and the cluster representative. -/
def chainIdentity (traceOf : String → String → List (Int × Int)) (q r : String) : ℚ :=
  alignmentIdentity (traceOf q r)

/-- Follows the spec's words (§4.4) for comparison with `alignmentIdentity`:
identity = (aligned positions where *neither* sequence has a gap) divided by
(total alignment length). -/
def specIdentity (trace : List (Int × Int)) : ℚ :=
  (((trace.filter fun p => p.1 ≠ -1 ∧ p.2 ≠ -1).length : ℚ)) / ((trace.length : ℚ))

/-- Identity oracle of the C6 test vector: identical strings score `1.0`,
any two distinct strings score `0.0`. -/
def eqIdentity (s t : String) : ℚ :=
  if s = t then 1 else 0

/-- Identity oracle scoring every pair `0.0`; used to exhibit greedy-order
behaviour on fully dissimilar chains. -/
def zeroIdentity : String → String → ℚ :=
  fun _ _ => 0

/-- Total member count over a cluster list. -/
def membersSum (cs : List (Nat × List String)) : Nat :=
  (cs.map fun c => c.2.length).sum

/-! ### Secondary structure (src/cli/pdb.py, get_secondary_structure) -/

/-- `BIOTITE_SSE_CODES["helix"]` from src/cli/constants.py. -/
def BIOTITE_SSE_HELIX : List String := ["a"]

/-- `BIOTITE_SSE_CODES["strand"]` from src/cli/constants.py. -/
def BIOTITE_SSE_STRAND : List String := ["b"]

structure SecStructureRecord where
  helix : ℚ
  strand : ℚ
  coil : ℚ
deriving DecidableEq, Repr

/-- `get_secondary_structure` (src/cli/pdb.py lines 61-82) on the per-residue
class labels returned by the external `annotate_sse` (one string per residue,
`""` when the residue received no label). -/
def get_secondary_structure (sse : List String) : SecStructureRecord :=
  let helix_residues := (sse.filter (· ∈ BIOTITE_SSE_HELIX)).length
  let strand_residues := (sse.filter (· ∈ BIOTITE_SSE_STRAND)).length
  let total_sse_residues := (sse.filter (· ≠ "")).length
  if total_sse_residues = 0 then
    ⟨0, 0, 1⟩
  else
    ⟨(helix_residues : ℚ) / (total_sse_residues : ℚ),
     (strand_residues : ℚ) / (total_sse_residues : ℚ),
     ((total_sse_residues : ℚ) - (helix_residues : ℚ) - (strand_residues : ℚ)) / (total_sse_residues : ℚ)⟩

/-- Loop invariant of the clustering computation, after `n` sequences have
been consumed and with `s0` the seed of the first cluster: the member lists
hold all `n` sequences, no cluster is empty, and the first cluster is still
keyed `0` with its first-seen member (its representative) unchanged. -/
def GoodState (s0 : String) (n : Nat) (st : Nat × List (Nat × List String)) : Prop :=
  membersSum st.2 = n ∧ (∀ c ∈ st.2, c.2 ≠ []) ∧
    ∃ m tl, st.2 = (0, m) :: tl ∧ m ≠ [] ∧ m.headI = s0

/-- Concrete alignment-trace oracle for witnesses: identical strings get the
gapless one-column alignment (line-44 identity `1`), distinct strings get a
fully gapped two-column alignment (line-44 identity `1/2`). -/
def exTraceOf (q r : String) : List (Int × Int) :=
  if q = r then [(0, 0)] else [(0, -1), (-1, 0)]

/-! ### Structure Acquisition Manager (src/cli/rcsb.py, download_biological_assembly)

The three remote locations are modelled as an oracle
`Nat → Tier → Resp` giving, per loop iteration and per location, whether the
request succeeds, fails with an HTTP status (`urllib` raises `HTTPError`,
the clean not-found case), or fails to connect (`URLError` that is not an
`HTTPError`).  The function returns its result together with the trace of
requests it issued, as `(iteration, location)` pairs.

Exception flow of the Python (lines 56-73): the outer `try` catches
`HTTPError` from the biounit request and, in that handler, tries the bundle
and then the plain structure, each guarded only by `except HTTPError`.  The
outer `except URLError` applies only to the biounit request: a `URLError`
raised by the bundle or plain-structure request happens inside the
`except HTTPError` handler and propagates out of the whole statement, so it
is modelled as `DlResult.uncaught`. -/

/-- `RCSB_CONTACT_RETRIES = 10` from src/cli/constants.py. -/
def RCSB_CONTACT_RETRIES : Nat := 10

inductive Tier where
  | biounit
  | bundle
  | plain
deriving DecidableEq, Repr

inductive Resp where
  | success
  | notFound
  | connError
deriving DecidableEq, Repr

inductive DlResult where
  | completed (succeeded : Bool)
  | uncaught
deriving DecidableEq, Repr

/-- One pass of the fallback chain (one iteration of the `for _ in
range(retries)` loop body).  `none` in the first component means the pass
ended in the outer `except URLError: sleep(1)` handler and the loop
continues. -/
def downloadAttempt (r : Tier → Resp) : Option DlResult × List Tier :=
  match r .biounit with
  | .success => (some (.completed true), [.biounit])
  | .connError => (none, [.biounit])
  | .notFound =>
    match r .bundle with
    | .success => (some (.completed true), [.biounit, .bundle])
    | .connError => (some .uncaught, [.biounit, .bundle])
    | .notFound =>
      match r .plain with
      | .success => (some (.completed true), [.biounit, .bundle, .plain])
      | .connError => (some .uncaught, [.biounit, .bundle, .plain])
      | .notFound => (some (.completed false), [.biounit, .bundle, .plain])

/-- The retry loop of lines 56-73, `n` iterations remaining, current
iteration index `i`; falling off the loop returns `False` (line 73). -/
def downloadLoop (env : Nat → Tier → Resp) : Nat → Nat → DlResult × List (Nat × Tier)
  | 0, _ => (.completed false, [])
  | n + 1, i =>
    match downloadAttempt (env i) with
    | (some res, reqs) => (res, reqs.map fun t => (i, t))
    | (none, reqs) =>
      let r := downloadLoop env n (i + 1)
      (r.1, (reqs.map fun t => (i, t)) ++ r.2)

/-- `download_biological_assembly` (src/cli/rcsb.py lines 44-73). -/
def download_biological_assembly (env : Nat → Tier → Resp)
    (retries : Nat := RCSB_CONTACT_RETRIES) : DlResult × List (Nat × Tier) :=
  downloadLoop env retries 0

/-! ### Per-identifier pipeline (src/scripts/filtering/get_pdbs_by_size.py)

The filesystem and the remote archive are modelled by a `PdbEnv` oracle per
identifier; `processOne` is the body of the `for pdb_id in tqdm(pdb_ids)`
loop (lines 59-89), returning the identifier's outcome together with the
trace of pipeline effects it performed.  `Outcome.errorAbort` models an
uncaught Python exception, which propagates out of the loop and kills the
whole batch. -/

structure SizeRecord where
  atoms : Nat
  residues : Nat
  chains : Nat
deriving DecidableEq, Repr

structure SizeCriteria where
  min_atoms : Int
  max_atoms : Option Int
  min_residues : Int
  max_residues : Option Int
  min_chains : Int
  max_chains : Option Int
deriving DecidableEq, Repr

/-- An inclusive bound pair; an unset maximum means unbounded above. -/
def withinBound (v : Int) (lo : Int) (hi : Option Int) : Bool :=
  decide (lo ≤ v) && (match hi with | none => true | some h => decide (v ≤ h))

/-- Modelled from the spec: `cli/analysis.py` (`pdb_satisfies_metrics`) is
not under src/, only its callers are.  Spec §4.6: all configured (min, max)
bounds are inclusive, an unset max bound means unbounded above, a field
fails the predicate if its value is outside its bound, and all criteria are
combined with logical AND. -/
def pdb_satisfies_metrics (m : SizeRecord) (c : SizeCriteria) : Bool :=
  withinBound m.atoms c.min_atoms c.max_atoms &&
  withinBound m.residues c.min_residues c.max_residues &&
  withinBound m.chains c.min_chains c.max_chains

/-- Modelled from the spec: `MAX_RESOLUTION` is imported by the filtering
scripts from `cli.constants` but absent from src/cli/constants.py.  Spec
§4.2 gives the quality cutoff default `5.0`. -/
def MAX_RESOLUTION : ℚ := 5

inductive Effect where
  | loadCache
  | acquire
  | resolutionCheck
  | computeMetrics
  | prepareStructure
  | saveCache
deriving DecidableEq, Repr

inductive Outcome where
  | accepted
  | excluded
  | errorAbort
deriving DecidableEq, Repr

/-- Oracle describing one identifier's world: the cached size record (if its
`<id>_size.json` exists), whether the downloaded and prepared files already
exist, the remote responses, the resolution field of the downloaded file,
and the size metrics the toolkit reports for the raw assembly and for the
prepared structure. -/
structure PdbEnv where
  cache : Option SizeRecord
  downloaded : Bool
  prepared : Bool
  remote : Nat → Tier → Resp
  resolution : Option ℚ
  assemblySize : SizeRecord
  preparedSize : SizeRecord

/-- `download_pdb_file` (src/cli/rcsb.py lines 120-129): if the archive is
not already downloaded, run the fallback chain and decompress on success;
unconditionally return the downloaded-file *path*.  First component: `none`
when the chain raised an uncaught `URLError`, otherwise `some b` with `b`
true iff the `<id>.mmtf` file exists afterwards. -/
def download_pdb_file (env : PdbEnv) : Option Bool × List Effect :=
  if env.downloaded then (some true, [])
  else
    match (download_biological_assembly env.remote RCSB_CONTACT_RETRIES).1 with
    | .completed true => (some true, [.acquire])
    | .completed false => (some false, [.acquire])
    | .uncaught => (none, [.acquire])

/-- Python truthiness of the `pathlib.Path` that `download_pdb_file`
returns: `Path` defines neither `__bool__` nor `__len__`, so the object is
always truthy and the caller's `if not rcsb.download_pdb_file(pdb_id):
continue` guard can never fire. -/
def pathTruthy : Bool := true

/-- Modelled from the spec: `rcsb.get_resolution` is called by the script
but absent from src/cli/rcsb.py.  Spec §4.2 reads a quality field from the
downloaded structure file (absence of the field is a valid `none`), and spec
§4.1/§7 make unreadable local files raise; reading the file when it does not
exist is the irrecoverable local I/O failure case. -/
def resolutionExceeds (res : Option ℚ) : Bool :=
  match res with
  | some r => decide (MAX_RESOLUTION < r)
  | none => false

/-- Lines 83-88 once a prepared structure exists: parse it, compute the size
metrics, persist them in the Metric Cache, and evaluate the filter. -/
def deriveAndFilter (env : PdbEnv) (crit : SizeCriteria) : Outcome × List Effect :=
  (if pdb_satisfies_metrics env.preparedSize crit then .accepted else .excluded,
   [.computeMetrics, .saveCache])

/-- Lines 68-81 when no prepared structure exists (the downloaded file is
assumed present): resolution gate, raw-assembly size pre-filter against the
relaxed preparation bounds, then structure preparation. -/
def prepareStage (env : PdbEnv) (crit prep : SizeCriteria) : Outcome × List Effect :=
  if resolutionExceeds env.resolution then (.excluded, [.resolutionCheck])
  else if pdb_satisfies_metrics env.assemblySize prep then
    let r := deriveAndFilter env crit
    (r.1, [.resolutionCheck, .computeMetrics, .prepareStructure] ++ r.2)
  else (.excluded, [.resolutionCheck, .computeMetrics])

/-- The body of the per-identifier loop (src/scripts/filtering/
get_pdbs_by_size.py lines 59-89): a cache hit loads the record and goes
straight to the filter; otherwise download if needed (the dead
`if not download_pdb_file: continue` guard is kept, conditioned on
`pathTruthy`), read the resolution of the downloaded file (raising when that
file does not exist), prepare, derive, cache, filter. -/
def processOne (env : PdbEnv) (crit prep : SizeCriteria) : Outcome × List Effect :=
  match env.cache with
  | some m =>
    (if pdb_satisfies_metrics m crit then .accepted else .excluded, [.loadCache])
  | none =>
    let dl := if env.downloaded then ((some true : Option Bool), ([] : List Effect))
              else download_pdb_file env
    match dl.1 with
    | none => (.errorAbort, dl.2)
    | some fileNow =>
      if pathTruthy = false then (.excluded, dl.2)
      else if env.prepared then
        let r := deriveAndFilter env crit
        (r.1, dl.2 ++ r.2)
      else if fileNow then
        let r := prepareStage env crit prep
        (r.1, dl.2 ++ r.2)
      else (.errorAbort, dl.2 ++ [.resolutionCheck])

/-- The whole batch (lines 58-92): outcomes are folded into the accepted
list; an uncaught exception aborts the loop before the output file is
written, modelled as `none`. -/
def runBatch (crit prep : SizeCriteria) : List (String × PdbEnv) → Option (List String)
  | [] => some []
  | (pid, env) :: rest =>
    match (processOne env crit prep).1 with
    | .errorAbort => none
    | .accepted => (runBatch crit prep rest).map (pid :: ·)
    | .excluded => runBatch crit prep rest

/-- A size record used by concrete witnesses. -/
def szEx : SizeRecord := ⟨100, 20, 2⟩

/-- Criteria accepting `szEx` (the script's defaults: all minimums 1, no
maximums). -/
def critEx : SizeCriteria := ⟨1, none, 1, none, 1, none⟩

/-- Remote oracle answering not-found at every location forever. -/
def remoteAll404 : Nat → Tier → Resp := fun _ _ => .notFound

/-- Environment of an identifier whose acquisition fails cleanly: nothing
cached, nothing on disk, every location not-found. -/
def badEnv : PdbEnv :=
  ⟨none, false, false, remoteAll404, none, szEx, szEx⟩

/-- Environment of a healthy identifier with its size record already in the
Metric Cache. -/
def goodEnv : PdbEnv :=
  ⟨some szEx, false, false, remoteAll404, none, szEx, szEx⟩

/-- Remote oracle of the C5 counterexample: the biounit location answers
not-found and the bundle location fails to connect, at every iteration. -/
def remoteBundleDown : Nat → Tier → Resp :=
  fun _ t => match t with
    | .biounit => .notFound
    | .bundle => .connError
    | .plain => .success

/-- Remote oracle whose first-tier request never connects. -/
def remoteConnDown : Nat → Tier → Resp := fun _ _ => .connError

/-- Remote oracle answering not-found at the first two locations and success
at the plain-structure location. -/
def remoteThirdOnly : Nat → Tier → Resp :=
  fun _ t => match t with
    | .biounit => .notFound
    | .bundle => .notFound
    | .plain => .success

end Volumizer

namespace Volumizer

/-! ### Lemmas about one scan of the cluster list -/

theorem placeInClusters_membersSum (identity : String → String → ℚ) (cutoff : ℚ) (q : String) :
    ∀ {cs cs' : List (Nat × List String)}, placeInClusters identity cutoff q cs = some cs' →
      membersSum cs' = membersSum cs + 1 := by
  intro cs
  induction cs with
  | nil => intro cs' h; simp [placeInClusters] at h
  | cons c rest ih =>
    intro cs' h
    rw [placeInClusters] at h
    split at h
    · obtain rfl := (Option.some.inj h).symm
      simp [membersSum]
      omega
    · obtain ⟨cs'', h1, rfl⟩ := Option.map_eq_some'.mp h
      have := ih h1
      simp [membersSum] at this ⊢
      omega

theorem placeInClusters_nonempty (identity : String → String → ℚ) (cutoff : ℚ) (q : String) :
    ∀ {cs cs' : List (Nat × List String)}, placeInClusters identity cutoff q cs = some cs' →
      (∀ c ∈ cs, c.2 ≠ []) → ∀ c ∈ cs', c.2 ≠ [] := by
  intro cs
  induction cs with
  | nil => intro cs' h; simp [placeInClusters] at h
  | cons c rest ih =>
    intro cs' h hne
    rw [placeInClusters] at h
    split at h
    · obtain rfl := (Option.some.inj h).symm
      intro d hd
      simp only [List.mem_cons] at hd
      rcases hd with rfl | hd
      · simp
      · exact hne d (by simp [hd])
    · obtain ⟨cs'', h1, rfl⟩ := Option.map_eq_some'.mp h
      intro d hd
      simp only [List.mem_cons] at hd
      rcases hd with rfl | hd
      · exact hne d (by simp)
      · exact ih h1 (fun e he => hne e (by simp [he])) d hd

theorem placeInClusters_head (identity : String → String → ℚ) (cutoff : ℚ) (q : String)
    {k : Nat} {m : List String} {tl cs' : List (Nat × List String)}
    (h : placeInClusters identity cutoff q ((k, m) :: tl) = some cs') (hm : m ≠ []) :
    ∃ m' tl', cs' = (k, m') :: tl' ∧ m' ≠ [] ∧ m'.headI = m.headI := by
  rw [placeInClusters] at h
  split at h
  · obtain rfl := (Option.some.inj h).symm
    exact ⟨m ++ [q], tl, rfl, by simp, by cases m with
      | nil => exact absurd rfl hm
      | cons a as => rfl⟩
  · obtain ⟨cs'', h1, rfl⟩ := Option.map_eq_some'.mp h
    exact ⟨m, cs'', rfl, hm, rfl⟩

theorem placeInClusters_none (identity : String → String → ℚ) (cutoff : ℚ) (q : String) :
    ∀ cs : List (Nat × List String), (∀ c ∈ cs, identity q (representative c) < cutoff) →
      placeInClusters identity cutoff q cs = none := by
  intro cs
  induction cs with
  | nil => intro _; rfl
  | cons c rest ih =>
    intro h
    have hc : ¬ cutoff ≤ identity q (representative c) := not_le.mpr (h c (by simp))
    rw [placeInClusters, if_neg hc, ih (fun d hd => h d (by simp [hd]))]
    rfl

theorem placeInClusters_at (identity : String → String → ℚ) (cutoff : ℚ) (q : String) :
    ∀ (cs : List (Nat × List String)) (i : Nat) (c : Nat × List String),
      cs.get? i = some c →
      cutoff ≤ identity q (representative c) →
      (∀ j d, j < i → cs.get? j = some d → identity q (representative d) < cutoff) →
      placeInClusters identity cutoff q cs
        = some (cs.take i ++ (c.1, c.2 ++ [q]) :: cs.drop (i + 1)) := by
  intro cs
  induction cs with
  | nil => intro i c h; simp at h
  | cons a rest ih =>
    intro i c hget hc hfirst
    cases i with
    | zero =>
      have ha : a = c := by simpa using hget
      subst ha
      rw [placeInClusters, if_pos hc]
      simp
    | succ i =>
      have ha : identity q (representative a) < cutoff :=
        hfirst 0 a (Nat.succ_pos i) rfl
      rw [placeInClusters, if_neg (not_le.mpr ha),
        ih i c (by simpa using hget) hc
          (fun j d hj hd => hfirst (j + 1) d (Nat.succ_lt_succ hj) (by simpa using hd))]
      simp

/-! ### Loop invariant of the clustering computation -/

theorem assignSeq_good (identity : String → String → ℚ) (cutoff : ℚ) (s0 : String)
    (n : Nat) (st : Nat × List (Nat × List String)) (q : String)
    (h : GoodState s0 n st) : GoodState s0 (n + 1) (assignSeq identity cutoff st q) := by
  obtain ⟨hsum, hne, m, tl, hst, hm, hhead⟩ := h
  unfold assignSeq
  cases hp : placeInClusters identity cutoff q st.2 with
  | some clusters =>
    refine ⟨?_, ?_, ?_⟩
    · show membersSum clusters = n + 1
      rw [placeInClusters_membersSum identity cutoff q hp, hsum]
    · exact placeInClusters_nonempty identity cutoff q hp hne
    · rw [hst] at hp
      obtain ⟨m', tl', hcs, hm', hh'⟩ := placeInClusters_head identity cutoff q hp hm
      exact ⟨m', tl', hcs, hm', by rw [hh', hhead]⟩
  | none =>
    refine ⟨?_, ?_, ?_⟩
    · simp [membersSum] at hsum ⊢
      omega
    · intro c hc
      rcases List.mem_append.mp hc with hc | hc
      · exact hne c hc
      · simp at hc
        simp [hc]
    · exact ⟨m, tl ++ [(st.1 + 1, [q])], by rw [hst]; rfl, hm, hhead⟩

theorem foldl_assignSeq_good (identity : String → String → ℚ) (cutoff : ℚ) (s0 : String) :
    ∀ (l : List String) (st : Nat × List (Nat × List String)) (n : Nat),
      GoodState s0 n st →
      GoodState s0 (n + l.length) (l.foldl (assignSeq identity cutoff) st) := by
  intro l
  induction l with
  | nil => intro st n h; simpa using h
  | cons q rest ih =>
    intro st n h
    have h2 := ih _ _ (assignSeq_good identity cutoff s0 n st q h)
    simp only [List.foldl_cons, List.length_cons]
    have : n + 1 + rest.length = n + (rest.length + 1) := by omega
    rw [← this]
    exact h2

/-! ### Claim theorems for the clustering engine -/

/-- Claim C2, counterexample: with two fully dissimilar chains in the order
`["A", "B"]` and cutoff `0.9`, the engine's first cluster is seeded by `"B"`,
the *last* chain's sequence, so its representative is not the first chain's
sequence as the claim states. -/
theorem stoich_chain_order_cex :
    getStoichClusters zeroIdentity SEQUENCE_IDENTITY_CUTOFF ["A", "B"]
      = some [(0, ["B"]), (1, ["A"])] ∧
    representative (0, ["B"]) ≠ "A" := by
  constructor
  · norm_num [getStoichClusters, assignSeq, placeInClusters, representative, zeroIdentity,
      SEQUENCE_IDENTITY_CUTOFF]
  · decide

/-- Claim C2, amended: `list.pop()` takes elements from the end, so the
engine processes the per-chain sequences in reverse chain order — it is the
spec's chain-order procedure run on the reversed sequence list, and the first
cluster's representative is the last chain's sequence. -/
theorem stoich_reverse_order (identity : String → String → ℚ) (cutoff : ℚ) :
    (∀ l : List String,
      getStoichClusters identity cutoff l = specOrderClusters identity cutoff l.reverse) ∧
    (∀ (l : List String) (cs : List (Nat × List String)),
      getStoichClusters identity cutoff l = some cs →
      ∃ m tl, cs = (0, m) :: tl ∧ some (representative (0, m)) = l.getLast?) := by
  constructor
  · intro l
    rfl
  · intro l cs hcs
    cases hrev : l.reverse with
    | nil => rw [getStoichClusters, hrev] at hcs; exact absurd hcs (by simp)
    | cons s0 rest =>
      have hinit : GoodState s0 1 (0, [(0, [s0])]) :=
        ⟨by simp [membersSum], by simp, [s0], [], rfl, by simp, rfl⟩
      obtain ⟨-, -, m, tl, hst, -, hh⟩ :=
        foldl_assignSeq_good identity cutoff s0 rest _ _ hinit
      rw [getStoichClusters, hrev] at hcs
      obtain rfl := (Option.some.inj hcs).symm
      refine ⟨m, tl, by rw [hst], ?_⟩
      have hlast : l.getLast? = some s0 := by
        rw [← List.head?_reverse, hrev]
        rfl
      rw [hlast, representative]
      simpa using hh

/-- Witness for `stoich_reverse_order` at the input of the counterexample. -/
theorem stoich_reverse_order_witness :
    ∃ m tl, [((0 : Nat), ["B"]), (1, ["A"])] = (0, m) :: tl ∧
      some (representative (0, m)) = ["A", "B"].getLast? :=
  (stoich_reverse_order zeroIdentity SEQUENCE_IDENTITY_CUTOFF).2 ["A", "B"]
    [(0, ["B"]), (1, ["A"])]
    (by norm_num [getStoichClusters, assignSeq, placeInClusters, representative, zeroIdentity,
      SEQUENCE_IDENTITY_CUTOFF])

/-- Claim C3, counterexample: the line-44 identity tests only the
representative's column of the trace for gaps.  On the optimal alignment of a
one-letter query against a two-letter representative (trace
`[(0, 0), (-1, 1)]`, the query gapped at the second column) the code computes
identity `1`, while the spec's "neither sequence has a gap" formula gives
`1/2`. -/
theorem identity_formula_cex :
    alignmentIdentity [(0, 0), (-1, 1)] = 1 ∧
    specIdentity [(0, 0), (-1, 1)] = 1 / 2 ∧
    alignmentIdentity [(0, 0), (-1, 1)] ≠ specIdentity [(0, 0), (-1, 1)] := by
  have h1 : alignmentIdentity [(0, 0), (-1, 1)] = 1 := by norm_num [alignmentIdentity]
  have h2 : specIdentity [(0, 0), (-1, 1)] = 1 / 2 := by norm_num [specIdentity]
  refine ⟨h1, h2, ?_⟩
  rw [h1, h2]
  norm_num

/-- Claim C3, amended: for each sequence being placed the engine computes
identity against each existing cluster's representative as (number of aligned
positions where the *representative* has no gap) divided by (total alignment
length) — `chainIdentity`/`alignmentIdentity`, from src/cli/pdb.py line 44.
If that identity reaches the cutoff for the cluster at position `i` and for
no earlier cluster, the sequence joins exactly that cluster and scanning
stops (the later clusters are untouched); a new cluster holding only the
sequence is appended if and only if no existing cluster reaches the
cutoff. -/
theorem stoich_first_match (traceOf : String → String → List (Int × Int)) (cutoff : ℚ)
    (count : Nat) (clusters : List (Nat × List String)) (q : String) :
    (∀ i c, clusters.get? i = some c →
      cutoff ≤ chainIdentity traceOf q (representative c) →
      (∀ j d, j < i → clusters.get? j = some d →
        chainIdentity traceOf q (representative d) < cutoff) →
      assignSeq (chainIdentity traceOf) cutoff (count, clusters) q
        = (count, clusters.take i ++ (c.1, c.2 ++ [q]) :: clusters.drop (i + 1))) ∧
    ((∀ c ∈ clusters, chainIdentity traceOf q (representative c) < cutoff) →
      assignSeq (chainIdentity traceOf) cutoff (count, clusters) q
        = (count + 1, clusters ++ [(count + 1, [q])])) := by
  constructor
  · intro i c hget hc hfirst
    show (match placeInClusters (chainIdentity traceOf) cutoff q clusters with
      | some cs => (count, cs)
      | none => (count + 1, clusters ++ [(count + 1, [q])])) = _
    rw [placeInClusters_at (chainIdentity traceOf) cutoff q clusters i c hget hc hfirst]
  · intro hall
    show (match placeInClusters (chainIdentity traceOf) cutoff q clusters with
      | some cs => (count, cs)
      | none => (count + 1, clusters ++ [(count + 1, [q])])) = _
    rw [placeInClusters_none (chainIdentity traceOf) cutoff q clusters hall]

/-- Witness for `stoich_first_match`: the query `"A"` skips the dissimilar
cluster `0` and joins cluster `1`, whose representative is `"A"`. -/
theorem stoich_first_match_witness :
    assignSeq (chainIdentity exTraceOf) SEQUENCE_IDENTITY_CUTOFF
      (1, [(0, ["B"]), (1, ["A"])]) "A" = (1, [(0, ["B"]), (1, ["A", "A"])]) := by
  have h := (stoich_first_match exTraceOf SEQUENCE_IDENTITY_CUTOFF 1
      [(0, ["B"]), (1, ["A"])] "A").1 1 (1, ["A"]) rfl
    (by norm_num [chainIdentity, alignmentIdentity, exTraceOf, representative,
      SEQUENCE_IDENTITY_CUTOFF])
    (fun j d hj hget => by
      have hj0 : j = 0 := Nat.lt_one_iff.mp hj
      subst hj0
      have hd : (((0 : Nat), ["B"]) : Nat × List String) = d := Option.some.inj hget
      rw [← hd]
      norm_num +decide [chainIdentity, alignmentIdentity, exTraceOf, representative,
        SEQUENCE_IDENTITY_CUTOFF])
  simpa using h

/-- Claim C6: with cutoff `0.9` and an alignment oracle scoring identical
strings `1.0` and distinct strings `0.0`, the input
`["AAAA", "AAAA", "BBBB"]` yields exactly two clusters with member counts
`{1, 2}` and the reversed input yields counts `{2, 1}`: the same multiset. -/
theorem stoich_counts_example :
    get_stoichiometry eqIdentity SEQUENCE_IDENTITY_CUTOFF ["AAAA", "AAAA", "BBBB"]
      = some [(0, 1), (1, 2)] ∧
    get_stoichiometry eqIdentity SEQUENCE_IDENTITY_CUTOFF ["BBBB", "AAAA", "AAAA"]
      = some [(0, 2), (1, 1)] ∧
    (((get_stoichiometry eqIdentity SEQUENCE_IDENTITY_CUTOFF
        ["AAAA", "AAAA", "BBBB"]).getD []).map Prod.snd).Perm
      (((get_stoichiometry eqIdentity SEQUENCE_IDENTITY_CUTOFF
        ["BBBB", "AAAA", "AAAA"]).getD []).map Prod.snd) := by
  have h1 : get_stoichiometry eqIdentity SEQUENCE_IDENTITY_CUTOFF ["AAAA", "AAAA", "BBBB"]
      = some [(0, 1), (1, 2)] := by
    norm_num +decide [get_stoichiometry, getStoichClusters, assignSeq, placeInClusters,
      representative, eqIdentity, SEQUENCE_IDENTITY_CUTOFF]
  have h2 : get_stoichiometry eqIdentity SEQUENCE_IDENTITY_CUTOFF ["BBBB", "AAAA", "AAAA"]
      = some [(0, 2), (1, 1)] := by
    norm_num +decide [get_stoichiometry, getStoichClusters, assignSeq, placeInClusters,
      representative, eqIdentity, SEQUENCE_IDENTITY_CUTOFF]
  refine ⟨h1, h2, ?_⟩
  rw [h1, h2]
  decide

/-- Claim C9: for a non-empty chain list the stoichiometry mapping is a
partition of the chains — the member counts sum to the number of input chains
and every count is at least `1`. -/
theorem stoich_partition (identity : String → String → ℚ) (cutoff : ℚ)
    (l : List String) (h : l ≠ []) :
    ∃ counts, get_stoichiometry identity cutoff l = some counts ∧
      (counts.map Prod.snd).sum = l.length ∧ ∀ p ∈ counts, 1 ≤ p.2 := by
  cases hrev : l.reverse with
  | nil => exact absurd (List.reverse_eq_nil_iff.mp hrev) h
  | cons s0 rest =>
    have hinit : GoodState s0 1 (0, [(0, [s0])]) :=
      ⟨by simp [membersSum], by simp, [s0], [], rfl, by simp, rfl⟩
    obtain ⟨hsum, hne, -⟩ := foldl_assignSeq_good identity cutoff s0 rest _ _ hinit
    refine ⟨(rest.foldl (assignSeq identity cutoff) (0, [(0, [s0])])).2.map
        (fun c => (c.1, c.2.length)), ?_, ?_, ?_⟩
    · rw [get_stoichiometry, getStoichClusters, hrev]
      rfl
    · have hlen : rest.length + 1 = l.length := by
        have := congrArg List.length hrev
        simpa using this.symm
      have hms : membersSum (rest.foldl (assignSeq identity cutoff) (0, [(0, [s0])])).2
          = l.length := by
        rw [hsum]
        omega
      rw [List.map_map]
      simpa [membersSum, Function.comp] using hms
    · intro p hp
      simp only [List.mem_map] at hp
      obtain ⟨c, hc, rfl⟩ := hp
      have := hne c hc
      simpa [Nat.one_le_iff_ne_zero] using this

/-- Witness for `stoich_partition` on a concrete three-chain input. -/
theorem stoich_partition_witness :
    ∃ counts, get_stoichiometry eqIdentity SEQUENCE_IDENTITY_CUTOFF
        ["AAAA", "AAAA", "BBBB"] = some counts ∧
      (counts.map Prod.snd).sum = (["AAAA", "AAAA", "BBBB"] : List String).length ∧
      ∀ p ∈ counts, 1 ≤ p.2 :=
  stoich_partition eqIdentity SEQUENCE_IDENTITY_CUTOFF ["AAAA", "AAAA", "BBBB"] (by decide)

/-- Claim C10: the derivation pops a seed sequence before the loop, so a
structure with zero chains makes `get_stoichiometry` fail (the `IndexError`
is modelled as `none`) rather than return an empty mapping, while any
non-empty chain list succeeds. -/
theorem stoich_requires_nonempty (identity : String → String → ℚ) (cutoff : ℚ) :
    get_stoichiometry identity cutoff [] = none ∧
    ∀ l : List String, l ≠ [] → (get_stoichiometry identity cutoff l).isSome := by
  refine ⟨rfl, ?_⟩
  intro l hl
  cases hrev : l.reverse with
  | nil => exact absurd (List.reverse_eq_nil_iff.mp hrev) hl
  | cons s0 rest =>
    rw [get_stoichiometry, getStoichClusters, hrev]
    rfl

/-- Witness for `stoich_requires_nonempty`. -/
theorem stoich_requires_nonempty_witness :
    get_stoichiometry eqIdentity SEQUENCE_IDENTITY_CUTOFF [] = none ∧
    (get_stoichiometry eqIdentity SEQUENCE_IDENTITY_CUTOFF ["AAAA"]).isSome :=
  ⟨(stoich_requires_nonempty eqIdentity SEQUENCE_IDENTITY_CUTOFF).1,
   (stoich_requires_nonempty eqIdentity SEQUENCE_IDENTITY_CUTOFF).2 ["AAAA"] (by decide)⟩

/-- Claim C8: when zero residues receive any secondary-structure class label,
`get_secondary_structure` returns exactly `{helix: 0, strand: 0, coil: 1}`;
the division by the labelled-residue count is guarded by the
`total_sse_residues == 0` branch. -/
theorem secondary_structure_degenerate (sse : List String) (h : ∀ r ∈ sse, r = "") :
    get_secondary_structure sse = ⟨0, 0, 1⟩ := by
  have hfil : sse.filter (· ≠ "") = [] :=
    List.filter_eq_nil_iff.mpr (by intro a ha; simpa using h a ha)
  simp only [get_secondary_structure, hfil]
  simp

/-- Witness for `secondary_structure_degenerate` on a two-residue structure
with no assignable labels. -/
theorem secondary_structure_degenerate_witness :
    get_secondary_structure ["", ""] = ⟨0, 0, 1⟩ :=
  secondary_structure_degenerate ["", ""] (by decide)

/-! ### Claim theorems for the Structure Acquisition Manager -/

theorem downloadLoop_succ (env : Nat → Tier → Resp) (n i : Nat) :
    downloadLoop env (n + 1) i =
      match downloadAttempt (env i) with
      | (some res, reqs) => (res, reqs.map fun t => (i, t))
      | (none, reqs) =>
        ((downloadLoop env n (i + 1)).1,
         (reqs.map fun t => (i, t)) ++ (downloadLoop env n (i + 1)).2) := rfl

/-- Claim C4: when the biological-assembly and bundle locations answer
not-found and the plain-structure location succeeds, the download succeeds
after exactly one request to each location, all inside the first loop
iteration — no retry is consumed. -/
theorem fallback_order (env : Nat → Tier → Resp)
    (h1 : env 0 .biounit = .notFound) (h2 : env 0 .bundle = .notFound)
    (h3 : env 0 .plain = .success) :
    download_biological_assembly env RCSB_CONTACT_RETRIES
      = (.completed true, [(0, .biounit), (0, .bundle), (0, .plain)]) := by
  have ha : downloadAttempt (env 0)
      = (some (.completed true), [.biounit, .bundle, .plain]) := by
    simp [downloadAttempt, h1, h2, h3]
  show downloadLoop env RCSB_CONTACT_RETRIES 0 = _
  rw [show RCSB_CONTACT_RETRIES = 9 + 1 from rfl]
  simp [downloadLoop_succ, ha]

/-- Witness for `fallback_order`. -/
theorem fallback_order_witness :
    download_biological_assembly remoteThirdOnly RCSB_CONTACT_RETRIES
      = (.completed true, [(0, .biounit), (0, .bundle), (0, .plain)]) :=
  fallback_order remoteThirdOnly rfl rfl rfl

/-- Claim C5, counterexample: a connectivity error at the *bundle* location
is not caught by the retry handler — it propagates as an uncaught exception
after a single chain pass of two requests, instead of retrying the chain and
eventually returning failure as a value. -/
theorem retry_scope_cex :
    download_biological_assembly remoteBundleDown RCSB_CONTACT_RETRIES
      = (.uncaught, [(0, .biounit), (0, .bundle)]) ∧
    (download_biological_assembly remoteBundleDown RCSB_CONTACT_RETRIES).1
      ≠ .completed false ∧
    (download_biological_assembly remoteBundleDown RCSB_CONTACT_RETRIES).2.length
      = 2 := by
  refine ⟨rfl, ?_, rfl⟩
  decide

theorem downloadLoop_connError (env : Nat → Tier → Resp) :
    ∀ n i0 : Nat, (∀ i, i0 ≤ i → i < i0 + n → env i .biounit = .connError) →
      downloadLoop env n i0
        = (.completed false, (List.range' i0 n).map fun i => (i, Tier.biounit)) := by
  intro n
  induction n with
  | zero => intro i0 h; rfl
  | succ n ih =>
    intro i0 h
    have hb : env i0 .biounit = .connError := h i0 le_rfl (by omega)
    have ha : downloadAttempt (env i0) = (none, [.biounit]) := by
      simp [downloadAttempt, hb]
    simp only [downloadLoop_succ, ha]
    rw [ih (i0 + 1) (fun i hi1 hi2 => h i (by omega) (by omega))]
    simp [List.range']

/-- Claim C5, amended: only a connectivity error at the *first* location
pauses and retries the whole fallback chain, up to the fixed budget of 10
chain attempts, and exhausting the budget returns failure as a value after
exactly 10 first-tier requests; a connectivity error at the second or third
location instead propagates as an uncaught exception, ending the call after
a single chain pass. -/
theorem retry_first_tier (env : Nat → Tier → Resp) :
    ((∀ i, i < RCSB_CONTACT_RETRIES → env i .biounit = .connError) →
      download_biological_assembly env RCSB_CONTACT_RETRIES
        = (.completed false,
           (List.range RCSB_CONTACT_RETRIES).map fun i => (i, Tier.biounit))) ∧
    ((env 0 .biounit = .notFound → env 0 .bundle = .connError →
      download_biological_assembly env RCSB_CONTACT_RETRIES
        = (.uncaught, [(0, .biounit), (0, .bundle)]))) ∧
    ((env 0 .biounit = .notFound → env 0 .bundle = .notFound →
      env 0 .plain = .connError →
      download_biological_assembly env RCSB_CONTACT_RETRIES
        = (.uncaught, [(0, .biounit), (0, .bundle), (0, .plain)]))) := by
  refine ⟨?_, ?_, ?_⟩
  · intro h
    show downloadLoop env RCSB_CONTACT_RETRIES 0 = _
    rw [downloadLoop_connError env RCSB_CONTACT_RETRIES 0 (fun i hi1 hi2 => h i (by omega)),
      List.range_eq_range']
  · intro h1 h2
    have ha : downloadAttempt (env 0) = (some .uncaught, [.biounit, .bundle]) := by
      simp [downloadAttempt, h1, h2]
    show downloadLoop env RCSB_CONTACT_RETRIES 0 = _
    rw [show RCSB_CONTACT_RETRIES = 9 + 1 from rfl]
    simp [downloadLoop_succ, ha]
  · intro h1 h2 h3
    have ha : downloadAttempt (env 0)
        = (some .uncaught, [.biounit, .bundle, .plain]) := by
      simp [downloadAttempt, h1, h2, h3]
    show downloadLoop env RCSB_CONTACT_RETRIES 0 = _
    rw [show RCSB_CONTACT_RETRIES = 9 + 1 from rfl]
    simp [downloadLoop_succ, ha]

/-- Witness for `retry_first_tier`: first-tier connectivity errors on every
attempt exhaust the budget and yield failure after 10 chain attempts. -/
theorem retry_first_tier_witness :
    download_biological_assembly remoteConnDown RCSB_CONTACT_RETRIES
      = (.completed false,
         (List.range RCSB_CONTACT_RETRIES).map fun i => (i, Tier.biounit)) :=
  (retry_first_tier remoteConnDown).1 (fun _ _ => rfl)

/-! ### Claim theorems for the per-identifier pipeline -/

/-- Claim C1: for an identifier whose size record is already in the Metric
Cache, the pipeline evaluates the filter on the loaded cached record and its
effect trace contains no acquisition, no structure preparation and no metric
recomputation — a cache hit bypasses the network entirely. -/
theorem cache_hit_bypasses_network (env : PdbEnv) (crit prep : SizeCriteria)
    (m : SizeRecord) (h : env.cache = some m) :
    processOne env crit prep
      = (if pdb_satisfies_metrics m crit then .accepted else .excluded, [.loadCache]) ∧
    Effect.acquire ∉ (processOne env crit prep).2 ∧
    Effect.prepareStructure ∉ (processOne env crit prep).2 ∧
    Effect.computeMetrics ∉ (processOne env crit prep).2 := by
  have hp : processOne env crit prep
      = (if pdb_satisfies_metrics m crit then .accepted else .excluded, [.loadCache]) := by
    simp only [processOne, h]
  refine ⟨hp, ?_, ?_, ?_⟩ <;> rw [hp] <;> simp

/-- Witness for `cache_hit_bypasses_network` on a concrete cached
environment. -/
theorem cache_hit_bypasses_network_witness :
    processOne goodEnv critEx critEx
      = (if pdb_satisfies_metrics szEx critEx then .accepted else .excluded,
         [.loadCache]) ∧
    Effect.acquire ∉ (processOne goodEnv critEx critEx).2 ∧
    Effect.prepareStructure ∉ (processOne goodEnv critEx critEx).2 ∧
    Effect.computeMetrics ∉ (processOne goodEnv critEx critEx).2 :=
  cache_hit_bypasses_network goodEnv critEx critEx szEx rfl

/-- Claim C7, evaluated at the failing input: for an identifier with nothing
cached, nothing on disk, and a cleanly failing acquisition (every location
not-found), `download_pdb_file` still returns a truthy `Path`, so the
script's `continue` guard never fires; the pipeline walks on to read the
missing downloaded file and raises, aborting the whole batch — the healthy
identifier queued after it is lost instead of being processed. -/
theorem download_failure_aborts_batch :
    (download_biological_assembly badEnv.remote RCSB_CONTACT_RETRIES).1
      = .completed false ∧
    processOne badEnv critEx critEx = (.errorAbort, [.acquire, .resolutionCheck]) ∧
    processOne goodEnv critEx critEx = (.accepted, [.loadCache]) ∧
    runBatch critEx critEx [("AAAA", badEnv), ("BBBB", goodEnv)] = none := by
  refine ⟨rfl, rfl, rfl, rfl⟩

end Volumizer
